import Mathlib

/-!
Verification of the TheTally automated transaction categorization engine
(backend/app/models/categorization_rule.py, backend/app/models/transaction.py,
backend/app/services/categorization_service.py), shallowly embedded in Lean 4.

Modelling conventions:
- SQL NUMERIC amounts and confidences are modelled as rationals.
- Python None is modelled by Option; nullable columns are Option-typed fields.
- datetime.utcnow() timestamps are modelled by an explicit clock value passed in.
- The Python re module is modelled by a small executable regular-expression
  engine over the fragment of regex syntax the embedding supports (literal
  alphanumeric characters, space, underscore, hyphen, the dot wildcard and
  the Kleene star); any other character makes compilation fail, which the
  source treats the same way as a genuinely malformed pattern (re.error).
  re.search is unanchored search, re.compile is compilation.
- getattr(transaction, field, default) dynamic field lookup is modelled by a
  closed mapping from the string-valued matchable field names to accessors;
  an unknown field name yields none, matching the falsy default.
-/

/-- Regular expressions: the fragment of Python re patterns the embedding
compiles. fail matches nothing; epsilon matches the empty string. -/
inductive RE where
  | fail : RE
  | epsilon : RE
  | char : Char → RE
  | dot : RE
  | concat : RE → RE → RE
  | alt : RE → RE → RE
  | star : RE → RE
deriving DecidableEq

/-- Whether the regular expression accepts the empty string. -/
def RE.nullable : RE → Bool
  | .fail => false
  | .epsilon => true
  | .char _ => false
  | .dot => false
  | .concat a b => a.nullable && b.nullable
  | .alt a b => a.nullable || b.nullable
  | .star _ => true

/-- Brzozowski derivative of a regular expression by one character. -/
def RE.deriv : RE → Char → RE
  | .fail, _ => .fail
  | .epsilon, _ => .fail
  | .char a, c => if a = c then .epsilon else .fail
  | .dot, _ => .epsilon
  | .concat a b, c =>
      if a.nullable then .alt (.concat (a.deriv c) b) (b.deriv c)
      else .concat (a.deriv c) b
  | .alt a b, c => .alt (a.deriv c) (b.deriv c)
  | .star a, c => .concat (a.deriv c) (.star a)

/-- Whether the regular expression matches some initial segment of the
character list. -/
def RE.matchHere : RE → List Char → Bool
  | r, [] => r.nullable
  | r, c :: cs => r.nullable || RE.matchHere (r.deriv c) cs

/-- Unanchored search, the semantics of Python re.search: the pattern is
found somewhere inside the character list. -/
def RE.search : RE → List Char → Bool
  | r, [] => r.nullable
  | r, c :: cs => r.matchHere (c :: cs) || RE.search r cs

/-- Characters the embedded regex dialect accepts as literal atoms. -/
def regexLiteralChar (c : Char) : Bool :=
  c.isAlphanum || c = ' ' || c = '_' || c = '-'

/-- Compilation worker: scans the pattern left to right, keeping the atoms
compiled so far in reverse order so that a Kleene star can wrap the most
recent atom. Returns none on a character outside the supported dialect or a
star with nothing to repeat. -/
def compileRegexAux : List Char → List RE → Option (List RE)
  | [], acc => some acc
  | c :: cs, acc =>
      if c = '.' then compileRegexAux cs (RE.dot :: acc)
      else if c = '*' then
        match acc with
        | [] => none
        | a :: rest => compileRegexAux cs (RE.star a :: rest)
      else if regexLiteralChar c then compileRegexAux cs (RE.char c :: acc)
      else none

/-- The semantics of Python re.compile over the supported dialect: none
models re.error at compile time. -/
def re_compile (pat : String) : Option RE :=
  (compileRegexAux pat.data []).map fun acc =>
    (acc.reverse).foldr RE.concat RE.epsilon

/-- Python str.lower restricted to the ASCII characters the embedded
patterns use: lower-case every character of the string. -/
def pyLower (s : String) : String :=
  String.mk (s.data.map Char.toLower)

/-- Python substring containment (the in operator on str): the first list
occurs contiguously inside the second. -/
def containsSub (p : List Char) : List Char → Bool
  | [] => p.isEmpty
  | c :: cs => p.isPrefixOf (c :: cs) || containsSub p cs

/-- The per-transaction fields the categorization core reads and writes
(backend/app/models/transaction.py). Only the fields the core touches are
modelled; description is NOT NULL in the schema, merchant_name is nullable. -/
structure Txn where
  id : Nat
  tenant_id : String
  is_deleted : Bool
  amount : Rat
  description : String
  merchant_name : Option String
  transaction_category : Option String
  transaction_subcategory : Option String
  is_auto_categorized : Bool
  categorization_confidence : Option Rat
  categorization_rule_id : Option Nat
deriving DecidableEq

/-- getattr(transaction, field_to_match, "") restricted to the string-valued
matchable fields; none models both a missing attribute (whose falsy default
is the empty string) and a stored NULL. -/
def Txn.getField (t : Txn) (field : String) : Option String :=
  if field = "description" then some t.description
  else if field = "merchant_name" then t.merchant_name
  else none

/-- Transaction.categorize: sets category, subcategory and the
auto-categorized flag unconditionally; confidence and rule id only when the
corresponding argument is not None (backend/app/models/transaction.py). -/
def Txn.categorize (t : Txn) (category : String) (subcategory : Option String)
    (confidence : Option Rat) (rule_id : Option Nat) : Txn :=
  { t with
    transaction_category := some category
    transaction_subcategory := subcategory
    is_auto_categorized := rule_id.isSome
    categorization_confidence :=
      match confidence with
      | some c => some c
      | none => t.categorization_confidence
    categorization_rule_id :=
      match rule_id with
      | some rid => some rid
      | none => t.categorization_rule_id }

/-- CategorizationRule (backend/app/models/categorization_rule.py). The
category relationship is modelled by the target category name the rule
applies (rule.category.name); counters are the lifetime match and success
counters. -/
structure Rule where
  id : Nat
  tenant_id : String
  is_deleted : Bool
  name : String
  rule_type : String
  pattern : String
  is_case_sensitive : Bool
  is_regex : Bool
  field_to_match : String
  amount_min : Option Rat
  amount_max : Option Rat
  category_id : Nat
  categoryName : String
  subcategory : Option String
  priority : Int
  is_active : Bool
  is_system : Bool
  match_count : Nat
  success_count : Nat
  last_matched_at : Option Nat
  last_success_at : Option Nat
  confidence_threshold : Rat
  max_matches_per_day : Nat
  user_id : Option String
deriving DecidableEq

/-- The case folding matches_transaction applies to both the field value
and the pattern: identity when the rule is case sensitive, lower-casing
otherwise. -/
def caseFold (r : Rule) (s : String) : String :=
  if r.is_case_sensitive then s else pyLower s

/-- CategorizationRule.matches_transaction: amount-bound checks first, then
field lookup (falsy value is no match), then case folding, then regex search
or literal substring containment; a pattern that fails to compile is no
match. -/
def matches_transaction (r : Rule) (t : Txn) : Bool :=
  if r.amount_min.any (fun m => decide (t.amount < m)) then false
  else if r.amount_max.any (fun m => decide (m < t.amount)) then false
  else
    match t.getField r.field_to_match with
    | none => false
    | some fv =>
      if fv = "" then false
      else
        let fieldValue := caseFold r fv
        let pat := caseFold r r.pattern
        if r.is_regex then
          match re_compile pat with
          | none => false
          | some re => re.search fieldValue.data
        else containsSub pat.data fieldValue.data

/-- CategorizationRule.success_rate: success_count / match_count, with 0.0
when match_count is 0. -/
def success_rate (r : Rule) : Rat :=
  if r.match_count = 0 then 0
  else (r.success_count : Rat) / (r.match_count : Rat)

/-- CategorizationRule.is_high_performing. -/
def is_high_performing (r : Rule) : Bool :=
  decide ((0.8 : Rat) ≤ success_rate r) && decide (10 ≤ r.match_count)

/-- CategorizationRule.can_be_deleted: system rules and high-performing
rules are protected. -/
def can_be_deleted (r : Rule) : Bool :=
  if r.is_system then false
  else if is_high_performing r then false
  else true

/-- CategorizationRule.validate_amount_range. -/
def validate_amount_range (r : Rule) : Bool :=
  match r.amount_min, r.amount_max with
  | some lo, some hi => decide (lo ≤ hi)
  | _, _ => true

/-- CategorizationRule.record_match. -/
def record_match (r : Rule) (success : Bool) (now : Nat) : Rule :=
  { r with
    match_count := r.match_count + 1
    success_count := if success then r.success_count + 1 else r.success_count
    last_success_at := if success then some now else r.last_success_at
    last_matched_at := some now }

/-- CategorizationRule.reset_statistics. -/
def reset_statistics (r : Rule) : Rule :=
  { r with
    match_count := 0
    success_count := 0
    last_matched_at := none
    last_success_at := none }

/-- Result of CategorizationRule.apply_to_transaction: the returned flag and
the post-states of the rule and the transaction (in the source both are
mutated in place). -/
structure ApplyResult where
  applied : Bool
  rule : Rule
  txn : Txn
deriving DecidableEq

/-- The statistics update apply_to_transaction performs on the rule it
applies: both counters up by one, both timestamps set to now. -/
def bumpRule (r : Rule) (now : Nat) : Rule :=
  { r with
    match_count := r.match_count + 1
    success_count := r.success_count + 1
    last_matched_at := some now
    last_success_at := some now }

/-- CategorizationRule.apply_to_transaction: no mutation unless the rule
matches AND the lifetime match_count is still below max_matches_per_day;
otherwise categorize the transaction and bump both counters and both
timestamps together. -/
def apply_to_transaction (r : Rule) (t : Txn) (now : Nat) : ApplyResult :=
  if ¬ matches_transaction r t then ⟨false, r, t⟩
  else if r.max_matches_per_day ≤ r.match_count then ⟨false, r, t⟩
  else
    let t' := t.categorize r.categoryName r.subcategory
      (some r.confidence_threshold) (some r.id)
    ⟨true, bumpRule r now, t'⟩

/-- Result of CategorizationService.categorize_transaction: the returned
pair (success, rule_used) plus the post-states of the transaction and of
the scanned rule list. -/
structure CatResult where
  applied : Bool
  ruleUsed : Option Rule
  txn : Txn
  rules : List Rule
deriving DecidableEq

/-- The scanning loop of CategorizationService.categorize_transaction over
the priority-ordered active rules: for each rule in order, if it matches,
try to apply it; on a successful application stop and return (true, rule);
otherwise (no match, or matched but capped) continue with the remaining
rules. -/
def categorizeScan (t : Txn) (now : Nat) : List Rule → CatResult
  | [] => ⟨false, none, t, []⟩
  | r :: rest =>
    if matches_transaction r t then
      let app := apply_to_transaction r t now
      if app.applied then ⟨true, some app.rule, app.txn, app.rule :: rest⟩
      else
        let res := categorizeScan t now rest
        ⟨res.applied, res.ruleUsed, res.txn, r :: res.rules⟩
    else
      let res := categorizeScan t now rest
      ⟨res.applied, res.ruleUsed, res.txn, r :: res.rules⟩

/-- The row filter of CategorizationService.get_active_rules: tenant match,
not soft-deleted, active, and the optional rule_type filter. -/
def activeRuleFilter (tenant : String) (ruleType : Option String) (r : Rule) : Bool :=
  decide (r.tenant_id = tenant) && !r.is_deleted && r.is_active &&
    (match ruleType with
     | none => true
     | some ty => decide (r.rule_type = ty))

/-- The rows CategorizationService.get_active_rules selects from the
database state, before ordering. -/
def activeRulesOf (db : List Rule) (tenant : String) (ruleType : Option String) :
    List Rule :=
  db.filter (activeRuleFilter tenant ruleType)

/-- The output contract of CategorizationService.get_active_rules: the query
ends in ORDER BY priority DESC and nothing else, so SQL guarantees exactly
that the returned list is SOME permutation of the selected rows that is
sorted by descending priority; rows of equal priority may come back in any
relative order. -/
def getActiveRulesPost (db : List Rule) (tenant : String) (ruleType : Option String)
    (out : List Rule) : Prop :=
  out.Perm (activeRulesOf db tenant ruleType) ∧
    out.Sorted (fun a b => b.priority ≤ a.priority)

/-- Result record of CategorizationService.bulk_categorize_transactions. -/
structure BulkResult where
  categorized : Nat
  failed : Nat
  total : Nat
deriving DecidableEq

/-- The transactions bulk_categorize_transactions resolves from the id
list: id in the list, tenant match, not soft-deleted. -/
def resolveTxns (db : List Txn) (ids : List Nat) (tenant : String) : List Txn :=
  db.filter fun t =>
    ids.contains t.id && decide (t.tenant_id = tenant) && !t.is_deleted

/-- The per-transaction loop of bulk_categorize_transactions. Each
transaction is processed by self.categorize_transaction, modelled as an
oracle whose value is ok true (categorized), ok false (no rule applied) or
error (the unexpected exception the except branch catches); ok true bumps
categorized, anything else bumps failed, and an error never stops the loop. -/
def bulkLoop (process : Txn → Except String Bool) : List Txn → Nat × Nat
  | [] => (0, 0)
  | t :: rest =>
    let res := bulkLoop process rest
    match process t with
    | .ok true => (res.1 + 1, res.2)
    | .ok false => (res.1, res.2 + 1)
    | .error _ => (res.1, res.2 + 1)

/-- CategorizationService.bulk_categorize_transactions: resolve the
transaction set; an empty set short-circuits to all-zero counts; otherwise
run the loop and report categorized, failed and the resolved total. -/
def bulk_categorize_transactions (db : List Txn) (ids : List Nat) (tenant : String)
    (process : Txn → Except String Bool) : BulkResult :=
  let txns := resolveTxns db ids tenant
  if txns.isEmpty then ⟨0, 0, 0⟩
  else
    let counts := bulkLoop process txns
    ⟨counts.1, counts.2, txns.length⟩

/-- The validation failures CategorizationService.create_rule raises as
ValueError. -/
inductive CreateRuleError where
  | invalidRuleType
  | categoryNotFound
  | invalidRegex
deriving DecidableEq

/-- The category rows create_rule checks the target category against
(backend/app/models/category.py, fields the service reads). -/
structure Category where
  id : Nat
  tenant_id : String
  is_deleted : Bool
  name : String
deriving DecidableEq

/-- CategorizationService.create_rule: validates the rule type against the
closed list, the target category (same tenant, not deleted), and — only
when is_regex — that the pattern compiles; then constructs the rule with
the given fields, fresh counters, is_active true and is_system false. The
amount bounds arrive through kwargs and are stored without any validation. -/
def create_rule (categories : List Category) (name pattern : String)
    (category_id : Nat) (rule_type tenant_id : String) (user_id : Option String)
    (is_case_sensitive is_regex : Bool) (field_to_match : String) (priority : Int)
    (confidence_threshold : Rat) (max_matches_per_day : Nat)
    (amount_min amount_max : Option Rat) (subcategory : Option String)
    (newId : Nat) : Except CreateRuleError Rule :=
  if ¬ (rule_type = "keyword" ∨ rule_type = "regex" ∨ rule_type = "amount" ∨
        rule_type = "merchant" ∨ rule_type = "combined") then
    .error .invalidRuleType
  else if ¬ (categories.any fun c =>
      decide (c.id = category_id) && decide (c.tenant_id = tenant_id) &&
        !c.is_deleted) then
    .error .categoryNotFound
  else if is_regex && (re_compile pattern).isNone then
    .error .invalidRegex
  else
    .ok { id := newId
          tenant_id := tenant_id
          is_deleted := false
          name := name
          rule_type := rule_type
          pattern := pattern
          is_case_sensitive := is_case_sensitive
          is_regex := is_regex
          field_to_match := field_to_match
          amount_min := amount_min
          amount_max := amount_max
          category_id := category_id
          categoryName :=
            (categories.find? fun c =>
              decide (c.id = category_id) && decide (c.tenant_id = tenant_id) &&
                !c.is_deleted).elim "" Category.name
          subcategory := subcategory
          priority := priority
          is_active := true
          is_system := false
          match_count := 0
          success_count := 0
          last_matched_at := none
          last_success_at := none
          confidence_threshold := confidence_threshold
          max_matches_per_day := max_matches_per_day
          user_id := user_id }

/-!
Shared lemmas bridging the executable definitions and their mathematical
statements.
-/

/-- Python substring containment agrees with the mathematical infix
relation on the character lists. -/
theorem containsSub_iff (p : List Char) (s : List Char) :
    containsSub p s = true ↔ p <:+: s := by
  induction s with
  | nil => simp [containsSub, List.isEmpty_iff]
  | cons c cs ih =>
    simp [containsSub, List.infix_cons_iff, ih, List.isPrefixOf_iff_prefix]

/-- The amount_max guard of matches_transaction passes exactly when the
bound is absent or the amount is at most the bound. -/
theorem amount_max_false_iff (r : Rule) (t : Txn) :
    (Option.any (fun m => decide (m < t.amount)) r.amount_max = false) ↔
      ∀ m, r.amount_max = some m → t.amount ≤ m := by
  cases r.amount_max <;> simp [not_lt]

/-- The field/pattern tail of matches_transaction, characterised. -/
theorem matchesTail_iff (r : Rule) (t : Txn) :
    ((match t.getField r.field_to_match with
      | none => false
      | some fv =>
        !decide (fv = "") &&
          if r.is_regex = true then
            match re_compile (caseFold r r.pattern) with
            | none => false
            | some re => re.search (caseFold r fv).data
          else containsSub (caseFold r r.pattern).data (caseFold r fv).data) = true) ↔
      ∃ fv, t.getField r.field_to_match = some fv ∧ ¬ fv = "" ∧
        ((r.is_regex = true ∧ ∃ re, re_compile (caseFold r r.pattern) = some re ∧
            re.search (caseFold r fv).data = true) ∨
         (r.is_regex = false ∧ (caseFold r r.pattern).data <:+: (caseFold r fv).data)) := by
  cases hf : t.getField r.field_to_match with
  | none => simp
  | some fv =>
    by_cases he : fv = ""
    · simp [he]
    · cases hreg : r.is_regex with
      | true =>
        cases hc : re_compile (caseFold r r.pattern) with
        | none => simp [he, hc]
        | some re => simp [he, hc]
      | false => simp [he, containsSub_iff]

/-- apply_to_transaction on a non-matching rule changes nothing. -/
theorem apply_of_not_matching (r : Rule) (t : Txn) (now : Nat)
    (h : matches_transaction r t = false) : apply_to_transaction r t now = ⟨false, r, t⟩ := by
  simp [apply_to_transaction, h]

/-- apply_to_transaction on a matching rule whose lifetime match_count has
reached max_matches_per_day changes nothing. -/
theorem apply_of_capped (r : Rule) (t : Txn) (now : Nat)
    (h : matches_transaction r t = true) (hc : r.max_matches_per_day ≤ r.match_count) :
    apply_to_transaction r t now = ⟨false, r, t⟩ := by
  simp [apply_to_transaction, h, hc]

/-- apply_to_transaction on a matching, uncapped rule categorizes the
transaction and bumps the rule's statistics. -/
theorem apply_of_applicable (r : Rule) (t : Txn) (now : Nat)
    (h : matches_transaction r t = true) (hc : r.match_count < r.max_matches_per_day) :
    apply_to_transaction r t now =
      ⟨true, bumpRule r now,
        t.categorize r.categoryName r.subcategory (some r.confidence_threshold)
          (some r.id)⟩ := by
  simp [apply_to_transaction, h, not_le.mpr hc]

/-- The scan passes over a non-matching head rule untouched. -/
theorem scan_cons_not_matching (r : Rule) (t : Txn) (now : Nat) (rest : List Rule)
    (h : matches_transaction r t = false) :
    categorizeScan t now (r :: rest) =
      ⟨(categorizeScan t now rest).applied, (categorizeScan t now rest).ruleUsed,
       (categorizeScan t now rest).txn, r :: (categorizeScan t now rest).rules⟩ := by
  simp [categorizeScan, h]

/-- The scan passes over a matching but capped head rule untouched and
keeps scanning. -/
theorem scan_cons_capped (r : Rule) (t : Txn) (now : Nat) (rest : List Rule)
    (h : matches_transaction r t = true) (hc : r.max_matches_per_day ≤ r.match_count) :
    categorizeScan t now (r :: rest) =
      ⟨(categorizeScan t now rest).applied, (categorizeScan t now rest).ruleUsed,
       (categorizeScan t now rest).txn, r :: (categorizeScan t now rest).rules⟩ := by
  simp [categorizeScan, h, apply_of_capped r t now h hc]

/-- The scan applies a matching, uncapped head rule and stops. -/
theorem scan_cons_applies (r : Rule) (t : Txn) (now : Nat) (rest : List Rule)
    (h : matches_transaction r t = true) (hc : r.match_count < r.max_matches_per_day) :
    categorizeScan t now (r :: rest) =
      ⟨true, some (bumpRule r now),
       t.categorize r.categoryName r.subcategory (some r.confidence_threshold)
         (some r.id),
       bumpRule r now :: rest⟩ := by
  simp [categorizeScan, h, apply_of_applicable r t now h hc]

/-- The scan passes over any block of non-matching rules untouched. -/
theorem scan_append_not_matching (t : Txn) (now : Nat) (pre l : List Rule)
    (hpre : ∀ r ∈ pre, matches_transaction r t = false) :
    categorizeScan t now (pre ++ l) =
      ⟨(categorizeScan t now l).applied, (categorizeScan t now l).ruleUsed,
       (categorizeScan t now l).txn, pre ++ (categorizeScan t now l).rules⟩ := by
  induction pre with
  | nil => rfl
  | cons r pre ih =>
    have hr : matches_transaction r t = false := hpre r (by simp)
    rw [List.cons_append, scan_cons_not_matching r t now (pre ++ l) hr,
      ih (fun r hr => hpre r (by simp [hr]))]
    simp

/-- The bulk loop splits over list concatenation, componentwise. -/
theorem bulkLoop_append (process : Txn → Except String Bool) (l1 l2 : List Txn) :
    bulkLoop process (l1 ++ l2) =
      ((bulkLoop process l1).1 + (bulkLoop process l2).1,
       (bulkLoop process l1).2 + (bulkLoop process l2).2) := by
  induction l1 with
  | nil => simp [bulkLoop]
  | cons tx l1 ih =>
    rcases hp : process tx with e | b
    · simp [bulkLoop, hp, ih, Nat.add_right_comm]
    · cases b <;> simp [bulkLoop, hp, ih, Nat.add_right_comm]

/-- Every resolved transaction lands in exactly one of the two counters. -/
theorem bulkLoop_total (process : Txn → Except String Bool) (l : List Txn) :
    (bulkLoop process l).1 + (bulkLoop process l).2 = l.length := by
  induction l with
  | nil => simp [bulkLoop]
  | cons tx l ih =>
    rcases hp : process tx with e | b
    · simp [bulkLoop, hp, ← ih]; omega
    · cases b <;> simp [bulkLoop, hp, ← ih] <;> omega

/-- A transaction whose processing raises is counted as failed and the loop
keeps going over the rest. -/
theorem bulkLoop_error_cons (process : Txn → Except String Bool) (tx : Txn)
    (post : List Txn) (e : String) (h : process tx = Except.error e) :
    bulkLoop process (tx :: post) =
      ((bulkLoop process post).1, (bulkLoop process post).2 + 1) := by
  simp [bulkLoop, h]

/-!
Concrete fixtures used by the witness and counterexample theorems. All
rational constants are whole numbers so that record equalities evaluate by
kernel reduction.
-/

/-- A transaction a keyword rule on "coffee" matches. -/
def txnCoffee : Txn :=
  { id := 1, tenant_id := "t1", is_deleted := false, amount := 25,
    description := "Bought COFFEE today", merchant_name := none,
    transaction_category := none, transaction_subcategory := none,
    is_auto_categorized := false, categorization_confidence := none,
    categorization_rule_id := none }

/-- A case-insensitive keyword rule with inclusive amount bounds. -/
def ruleCoffee : Rule :=
  { id := 1, tenant_id := "t1", is_deleted := false, name := "coffee",
    rule_type := "keyword", pattern := "coffee", is_case_sensitive := false,
    is_regex := false, field_to_match := "description",
    amount_min := some 10, amount_max := some 50,
    category_id := 1, categoryName := "Dining", subcategory := none,
    priority := 200, is_active := true, is_system := false,
    match_count := 0, success_count := 0,
    last_matched_at := none, last_success_at := none,
    confidence_threshold := 1, max_matches_per_day := 1000,
    user_id := none }

/-- A lower-priority rule that also matches txnCoffee. -/
def ruleSecond : Rule :=
  { ruleCoffee with id := 3, priority := 50, categoryName := "Food" }

/-- A rule whose pattern does not occur in txnCoffee. -/
def ruleNoMatch : Rule :=
  { ruleCoffee with id := 4, pattern := "groceries", priority := 300 }

/-- A matching rule whose lifetime match_count has reached its
max_matches_per_day cap. -/
def ruleCapped : Rule :=
  { ruleCoffee with
    id := 2
    priority := 250
    match_count := 1000
    success_count := 900 }

/-- A rule whose field_to_match names no transaction field. -/
def ruleBadField : Rule :=
  { ruleCoffee with id := 5, field_to_match := "memo" }

/-- A regex rule whose pattern does not compile. -/
def ruleBadRegex : Rule :=
  { ruleCoffee with id := 6, is_regex := true, pattern := "(" }

/-- Two active rules of one tenant sharing priority 100. -/
def ruleTieA : Rule :=
  { ruleCoffee with id := 11, priority := 100 }

/-- Second rule of the equal-priority pair. -/
def ruleTieB : Rule :=
  { ruleCoffee with id := 12, priority := 100, pattern := "tea" }

/-- The categories visible to create_rule in the fixtures. -/
def exCategories : List Category :=
  [{ id := 1, tenant_id := "t1", is_deleted := false, name := "Dining" }]

/-- Bulk fixture transaction 2. -/
def txnB2 : Txn := { txnCoffee with id := 2 }

/-- Bulk fixture transaction 3, the one whose processing raises. -/
def txnB3 : Txn := { txnCoffee with id := 3 }

/-- Bulk fixture transaction 4. -/
def txnB4 : Txn := { txnCoffee with id := 4 }

/-- Bulk fixture transaction 5. -/
def txnB5 : Txn := { txnCoffee with id := 5 }

/-- Five resolvable transactions for the bulk fixtures. -/
def bulkDb : List Txn := [txnCoffee, txnB2, txnB3, txnB4, txnB5]

/-- A processing oracle that raises on transaction 3 and categorizes the
rest. -/
def failingProcess : Txn → Except String Bool := fun t =>
  if t.id = 3 then Except.error "boom" else Except.ok true

/-- Claim C2: matches(rule, transaction) returns true iff the amount bounds
hold inclusively, the matched field is present and non-empty, and after
case folding the pattern is found by unanchored regex search (regex mode)
or substring containment (literal mode). -/
theorem claim_C2_matches_characterization (r : Rule) (t : Txn) :
    matches_transaction r t = true ↔
      ((∀ m, r.amount_min = some m → m ≤ t.amount) ∧
       (∀ m, r.amount_max = some m → t.amount ≤ m) ∧
       ∃ fv, t.getField r.field_to_match = some fv ∧ fv ≠ "" ∧
         ((r.is_regex = true ∧
            ∃ re, re_compile (caseFold r r.pattern) = some re ∧
              re.search (caseFold r fv).data = true) ∨
          (r.is_regex = false ∧
            (caseFold r r.pattern).data <:+: (caseFold r fv).data))) := by
  unfold matches_transaction
  cases hmo : r.amount_min with
  | some m =>
    by_cases hm : t.amount < m
    · simp [hm]
    · simp [hm, not_lt.mp hm]
      exact and_congr (amount_max_false_iff r t) (matchesTail_iff r t)
  | none =>
    simp
    exact and_congr (amount_max_false_iff r t) (matchesTail_iff r t)

/-- Claim C6: the matcher is total — it always returns a boolean — and the
internal error conditions (field missing or empty, regex pattern failing to
compile at match time) all yield false rather than an exception. -/
theorem claim_C6_matcher_total (r : Rule) (t : Txn) :
    (matches_transaction r t = true ∨ matches_transaction r t = false) ∧
    ((t.getField r.field_to_match = none ∨ t.getField r.field_to_match = some "") →
      matches_transaction r t = false) ∧
    (r.is_regex = true → re_compile (caseFold r r.pattern) = none →
      matches_transaction r t = false) := by
  refine ⟨Bool.eq_false_or_eq_true _, ?_, ?_⟩
  · intro h
    rcases h with h | h <;> simp [matches_transaction, h]
  · intro h1 h2
    cases hf : t.getField r.field_to_match <;>
      simp [matches_transaction, h1, h2, hf]

/-- Claim C8: can_be_deleted(rule) is false exactly when the rule is a
system rule or high-performing (success_rate at least 0.8 and at least 10
matches), with success_rate defined as 0 when match_count is 0. -/
theorem claim_C8_deletion_guard (r : Rule) :
    (can_be_deleted r = false ↔
      r.is_system = true ∨ ((0.8 : Rat) ≤ success_rate r ∧ 10 ≤ r.match_count)) ∧
    (r.match_count = 0 → success_rate r = 0) := by
  constructor
  · cases hs : r.is_system
    · cases hh : is_high_performing r
      · simp [can_be_deleted, hs, hh]
        intro h1
        by_contra h2
        simp [is_high_performing, h1, not_lt.mp h2] at hh
      · simp [can_be_deleted, hs, hh]
        simpa [is_high_performing] using hh
    · simp [can_be_deleted, hs]
  · intro h
    simp [success_rate, h]

/-- Claim C10: each counter-mutating operation preserves
success_count at most match_count (apply bumps both by one, record_match
bumps match_count and success_count only on success, reset zeroes both),
hence success_rate lies in the unit interval. -/
theorem claim_C10_counter_invariant (r : Rule) (t : Txn) (now : Nat) (s : Bool)
    (h : r.success_count ≤ r.match_count) :
    ((apply_to_transaction r t now).applied = true →
      (apply_to_transaction r t now).rule.match_count = r.match_count + 1 ∧
      (apply_to_transaction r t now).rule.success_count = r.success_count + 1) ∧
    ((apply_to_transaction r t now).rule.success_count ≤
      (apply_to_transaction r t now).rule.match_count) ∧
    ((record_match r s now).match_count = r.match_count + 1 ∧
     (record_match r s now).success_count =
       (if s then r.success_count + 1 else r.success_count) ∧
     (record_match r s now).success_count ≤ (record_match r s now).match_count) ∧
    ((reset_statistics r).match_count = 0 ∧
     (reset_statistics r).success_count = 0) ∧
    (0 ≤ success_rate r ∧ success_rate r ≤ 1) := by
  have hA : (apply_to_transaction r t now = ⟨false, r, t⟩) ∨
      (apply_to_transaction r t now =
        ⟨true, bumpRule r now, t.categorize r.categoryName r.subcategory
          (some r.confidence_threshold) (some r.id)⟩) := by
    cases hm : matches_transaction r t
    · exact Or.inl (apply_of_not_matching r t now hm)
    · by_cases hc : r.max_matches_per_day ≤ r.match_count
      · exact Or.inl (apply_of_capped r t now hm hc)
      · exact Or.inr (apply_of_applicable r t now hm (not_le.mp hc))
  refine ⟨?_, ?_, ⟨rfl, rfl, ?_⟩, ⟨rfl, rfl⟩, ?_, ?_⟩
  · rcases hA with hA | hA <;> simp [hA, bumpRule]
  · rcases hA with hA | hA <;> simp [hA, bumpRule] <;> omega
  · cases s <;> simp [record_match] <;> omega
  · unfold success_rate
    by_cases h0 : r.match_count = 0
    · simp [h0]
    · simp only [h0, if_false]
      positivity
  · unfold success_rate
    by_cases h0 : r.match_count = 0
    · simp [h0]
    · have hpos : (0 : Rat) < (r.match_count : Rat) := by
        exact_mod_cast Nat.pos_of_ne_zero h0
      simp only [h0, if_false]
      rw [div_le_one hpos]
      exact_mod_cast h

/-- Claim C3: a matching rule whose lifetime match_count has reached
max_matches_per_day is not applied — its counters are untouched — and the
scan continues over the remaining lower-priority rules, possibly applying a
later one. -/
theorem claim_C3_capped_rule_skipped (t : Txn) (now : Nat) (pre : List Rule)
    (rc : Rule) (rest : List Rule)
    (hpre : ∀ r ∈ pre, matches_transaction r t = false)
    (hmatch : matches_transaction rc t = true)
    (hcap : rc.max_matches_per_day ≤ rc.match_count) :
    categorizeScan t now (pre ++ rc :: rest) =
      ⟨(categorizeScan t now rest).applied, (categorizeScan t now rest).ruleUsed,
       (categorizeScan t now rest).txn,
       pre ++ rc :: (categorizeScan t now rest).rules⟩ := by
  rw [scan_append_not_matching t now pre (rc :: rest) hpre,
    scan_cons_capped rc t now rest hmatch hcap]

/-- Claim C4: when the first matching rule in the ordering is applied, the
scan stops with (true, that rule) and every later rule — matching or not —
is left with its counters and timestamps unchanged. -/
theorem claim_C4_first_match_wins (t : Txn) (now : Nat) (pre : List Rule)
    (r1 : Rule) (rest : List Rule)
    (hpre : ∀ r ∈ pre, matches_transaction r t = false)
    (hmatch : matches_transaction r1 t = true)
    (hcap : r1.match_count < r1.max_matches_per_day) :
    categorizeScan t now (pre ++ r1 :: rest) =
      ⟨true, some (bumpRule r1 now),
       t.categorize r1.categoryName r1.subcategory (some r1.confidence_threshold)
         (some r1.id),
       pre ++ bumpRule r1 now :: rest⟩ := by
  rw [scan_append_not_matching t now pre (r1 :: rest) hpre,
    scan_cons_applies r1 t now rest hmatch hcap]

/-- Claim C5: a single categorization is atomic — when no rule is applied
the call returns (false, none) and neither the transaction nor any rule
counter changes; when a rule is applied, category, subcategory, confidence,
the auto-categorized flag and the rule id are all set together from that
rule. -/
theorem claim_C5_categorize_atomic (t : Txn) (now : Nat) (rules : List Rule) :
    ((categorizeScan t now rules).applied = false →
      (categorizeScan t now rules).ruleUsed = none ∧
      (categorizeScan t now rules).txn = t ∧
      (categorizeScan t now rules).rules = rules) ∧
    ((categorizeScan t now rules).applied = true →
      ∃ r ∈ rules, matches_transaction r t = true ∧
        (categorizeScan t now rules).ruleUsed = some (bumpRule r now) ∧
        (categorizeScan t now rules).txn.transaction_category =
          some r.categoryName ∧
        (categorizeScan t now rules).txn.transaction_subcategory =
          r.subcategory ∧
        (categorizeScan t now rules).txn.is_auto_categorized = true ∧
        (categorizeScan t now rules).txn.categorization_confidence =
          some r.confidence_threshold ∧
        (categorizeScan t now rules).txn.categorization_rule_id = some r.id) := by
  induction rules with
  | nil => exact ⟨fun _ => ⟨rfl, rfl, rfl⟩, by simp [categorizeScan]⟩
  | cons r rest ih =>
    cases hm : matches_transaction r t with
    | false =>
      rw [scan_cons_not_matching r t now rest hm]
      constructor
      · intro ha
        obtain ⟨h1, h2, h3⟩ := ih.1 ha
        exact ⟨h1, h2, by simp [h3]⟩
      · intro ha
        obtain ⟨r', hr', hrest⟩ := ih.2 ha
        exact ⟨r', by simp [hr'], hrest⟩
    | true =>
      by_cases hc : r.max_matches_per_day ≤ r.match_count
      · rw [scan_cons_capped r t now rest hm hc]
        constructor
        · intro ha
          obtain ⟨h1, h2, h3⟩ := ih.1 ha
          exact ⟨h1, h2, by simp [h3]⟩
        · intro ha
          obtain ⟨r', hr', hrest⟩ := ih.2 ha
          exact ⟨r', by simp [hr'], hrest⟩
      · rw [scan_cons_applies r t now rest hm (not_le.mp hc)]
        refine ⟨by simp, fun _ => ⟨r, by simp, hm, rfl, rfl, rfl, rfl, rfl, rfl⟩⟩

/-- Claim C7: bulk categorization returns all-zero counts on an empty
resolved set, otherwise total equals the number of resolved transactions
and categorized plus failed equals total; a transaction whose processing
raises is counted as failed while every other transaction is still
processed. -/
theorem claim_C7_bulk_counts (db : List Txn) (ids : List Nat) (tenant : String)
    (process : Txn → Except String Bool) :
    (resolveTxns db ids tenant = [] →
      bulk_categorize_transactions db ids tenant process = ⟨0, 0, 0⟩) ∧
    ((bulk_categorize_transactions db ids tenant process).total =
        (resolveTxns db ids tenant).length ∧
     (bulk_categorize_transactions db ids tenant process).categorized +
        (bulk_categorize_transactions db ids tenant process).failed =
        (bulk_categorize_transactions db ids tenant process).total) ∧
    (∀ pre tx post e, resolveTxns db ids tenant = pre ++ tx :: post →
      process tx = Except.error e →
      (bulk_categorize_transactions db ids tenant process).categorized =
        (bulkLoop process (pre ++ post)).1 ∧
      (bulk_categorize_transactions db ids tenant process).failed =
        (bulkLoop process (pre ++ post)).2 + 1) := by
  cases hres : resolveTxns db ids tenant with
  | nil =>
    refine ⟨fun _ => by simp [bulk_categorize_transactions, hres], ?_, ?_⟩
    · simp [bulk_categorize_transactions, hres]
    · intro pre tx post e heq hperr
      exact absurd heq (by simp)
  | cons a l =>
    refine ⟨fun h => absurd h (by simp), ?_, ?_⟩
    · constructor
      · simp [bulk_categorize_transactions, hres]
      · simp only [bulk_categorize_transactions, hres, List.isEmpty_cons,
          if_false, Bool.false_eq_true]
        exact bulkLoop_total process (a :: l)
    · intro pre tx post e heq hperr
      have hcount :
          bulkLoop process (a :: l) =
            ((bulkLoop process (pre ++ post)).1,
             (bulkLoop process (pre ++ post)).2 + 1) := by
        rw [heq, bulkLoop_append, bulkLoop_error_cons process tx post e hperr,
          bulkLoop_append]
        simp [Prod.ext_iff]
        omega
      simp [bulk_categorize_transactions, hres, hcount]

/-- Claim C1 (refuted): get_active_rules orders only by descending priority
with no tie-break, so for a tenant with two active rules of equal priority
both relative orders satisfy the query's output contract — the returned
order is not determined by the rule set. -/
theorem claim_C1_selector_order_underdetermined :
    getActiveRulesPost [ruleTieA, ruleTieB] "t1" none [ruleTieA, ruleTieB] ∧
    getActiveRulesPost [ruleTieA, ruleTieB] "t1" none [ruleTieB, ruleTieA] ∧
    [ruleTieA, ruleTieB] ≠ [ruleTieB, ruleTieA] := by
  have hsel : activeRulesOf [ruleTieA, ruleTieB] "t1" none =
      [ruleTieA, ruleTieB] := by decide
  refine ⟨⟨?_, ?_⟩, ⟨?_, ?_⟩, by decide⟩
  · rw [hsel]
  · decide
  · rw [hsel]
    exact List.Perm.swap ruleTieA ruleTieB []
  · decide

/-- The rule create_rule actually constructs from the inverted-bounds
request in claim C9. -/
def ruleInvertedBounds : Rule :=
  { id := 7, tenant_id := "t1", is_deleted := false, name := "big",
    rule_type := "keyword", pattern := "pay", is_case_sensitive := false,
    is_regex := false, field_to_match := "description",
    amount_min := some 50, amount_max := some 10,
    category_id := 1, categoryName := "Dining", subcategory := none,
    priority := 100, is_active := true, is_system := false,
    match_count := 0, success_count := 0,
    last_matched_at := none, last_success_at := none,
    confidence_threshold := 1, max_matches_per_day := 1000,
    user_id := none }

/-- Claim C9 (refuted on the inverted-bounds case): create_rule checks the
rule type, the target category and — for regex rules — the pattern, but it
never validates the amount bounds: a request with amount_min 50 and
amount_max 10 is accepted and the stored rule fails
validate_amount_range. -/
theorem claim_C9_inverted_bounds_accepted :
    create_rule exCategories "big" "pay" 1 "keyword" "t1" none false false
        "description" 100 1 1000 (some 50) (some 10) none 7 =
      Except.ok ruleInvertedBounds ∧
    ruleInvertedBounds.amount_min = some 50 ∧
    ruleInvertedBounds.amount_max = some 10 ∧
    validate_amount_range ruleInvertedBounds = false := by
  refine ⟨rfl, rfl, rfl, by decide⟩

/-- Witness for claim C3: with a non-matching rule ahead of it, the capped
rule on coffee is skipped untouched and the scan outcome is that of the
remaining lower-priority rule. -/
theorem claim_C3_capped_rule_skipped_witness :
    categorizeScan txnCoffee 0 ([ruleNoMatch] ++ ruleCapped :: [ruleSecond]) =
      ⟨(categorizeScan txnCoffee 0 [ruleSecond]).applied,
       (categorizeScan txnCoffee 0 [ruleSecond]).ruleUsed,
       (categorizeScan txnCoffee 0 [ruleSecond]).txn,
       [ruleNoMatch] ++ ruleCapped ::
         (categorizeScan txnCoffee 0 [ruleSecond]).rules⟩ :=
  claim_C3_capped_rule_skipped txnCoffee 0 [ruleNoMatch] ruleCapped [ruleSecond]
    (by decide) (by decide) (by decide)

/-- Witness for claim C4: the first matching uncapped rule is applied, the
scan stops, and the lower-priority matching rule behind it is untouched. -/
theorem claim_C4_first_match_wins_witness :
    categorizeScan txnCoffee 0 ([ruleNoMatch] ++ ruleCoffee :: [ruleSecond]) =
      ⟨true, some (bumpRule ruleCoffee 0),
       Txn.categorize txnCoffee ruleCoffee.categoryName ruleCoffee.subcategory
         (some ruleCoffee.confidence_threshold) (some ruleCoffee.id),
       [ruleNoMatch] ++ bumpRule ruleCoffee 0 :: [ruleSecond]⟩ :=
  claim_C4_first_match_wins txnCoffee 0 [ruleNoMatch] ruleCoffee [ruleSecond]
    (by decide) (by decide) (by decide)

/-- Witness for claim C5: when the only rule does not match, the scan
reports no rule used and leaves the transaction and the rule list
unchanged. -/
theorem claim_C5_categorize_atomic_witness :
    (categorizeScan txnCoffee 0 [ruleNoMatch]).ruleUsed = none ∧
    (categorizeScan txnCoffee 0 [ruleNoMatch]).txn = txnCoffee ∧
    (categorizeScan txnCoffee 0 [ruleNoMatch]).rules = [ruleNoMatch] :=
  (claim_C5_categorize_atomic txnCoffee 0 [ruleNoMatch]).1 (by decide)

/-- Witness for claim C6: a rule naming an unknown field and a regex rule
whose pattern does not compile both yield false on a concrete
transaction. -/
theorem claim_C6_matcher_total_witness :
    matches_transaction ruleBadField txnCoffee = false ∧
    matches_transaction ruleBadRegex txnCoffee = false :=
  ⟨(claim_C6_matcher_total ruleBadField txnCoffee).2.1 (Or.inl rfl),
   (claim_C6_matcher_total ruleBadRegex txnCoffee).2.2 rfl (by decide)⟩

/-- Witness for claim C7: of five resolved transactions with processing
raising on the third, the third is counted in failed and the other four
are still processed. -/
theorem claim_C7_bulk_counts_witness :
    (bulk_categorize_transactions bulkDb [1, 2, 3, 4, 5] "t1"
        failingProcess).categorized =
      (bulkLoop failingProcess ([txnCoffee, txnB2] ++ [txnB4, txnB5])).1 ∧
    (bulk_categorize_transactions bulkDb [1, 2, 3, 4, 5] "t1"
        failingProcess).failed =
      (bulkLoop failingProcess ([txnCoffee, txnB2] ++ [txnB4, txnB5])).2 + 1 :=
  (claim_C7_bulk_counts bulkDb [1, 2, 3, 4, 5] "t1" failingProcess).2.2
    [txnCoffee, txnB2] txnB3 [txnB4, txnB5] "boom" (by decide) rfl

/-- Witness for claim C8: a rule that has never matched has success rate
zero without dividing by zero. -/
theorem claim_C8_deletion_guard_witness :
    success_rate ruleCoffee = 0 :=
  (claim_C8_deletion_guard ruleCoffee).2 rfl

/-- Witness for claim C10: the heavily matched capped rule keeps its
success rate inside the unit interval. -/
theorem claim_C10_counter_invariant_witness :
    0 ≤ success_rate ruleCapped ∧ success_rate ruleCapped ≤ 1 :=
  (claim_C10_counter_invariant ruleCapped txnCoffee 0 true (by decide)).2.2.2.2

/-- Witness for claim C2: the characterization instantiated on the coffee
keyword rule and the matching transaction. -/
theorem claim_C2_matches_characterization_witness :
    matches_transaction ruleCoffee txnCoffee = true :=
  (claim_C2_matches_characterization ruleCoffee txnCoffee).mpr
    ⟨fun m hm => by injection hm with h; rw [← h]; decide,
     fun m hm => by injection hm with h; rw [← h]; decide,
     txnCoffee.description, rfl, by decide,
     Or.inr ⟨rfl, (containsSub_iff _ _).mp (by decide)⟩⟩
